import Mathlib

/-!
Verification of the opencode-smart-voice-notify plugin.

Part 1 embeds the Linux audio platform module (src/util/linux.js,
function `createLinuxPlatform`): volume query/set/unmute for the
PulseAudio and ALSA backends, the unified auto-detecting wrappers,
`forceVolume` / `forceVolumeIfNeeded`, and looping audio playback
`playAudioFile` with the WSL2 / PulseAudio / ALSA fallback chain.

The shell is modelled by an environment `Env` recording, for each
external command, whether it succeeds and what output it parses to.
Every embedded function returns its JS return value together with the
list of shell commands it issued, so that claims about which commands
are (not) issued can be stated.

Part 2 (further below) models the idle reminder scheduler, whose
implementation file is not part of this source snapshot; it is
modelled from the specification.
-/

namespace SmartVoiceNotify

namespace LinuxAudio

/-- Shell commands the audio module can issue.  Playback commands carry
the loop iteration index at which they were issued, so that traces
distinguish repeated attempts. -/
inductive Cmd where
  | pactlGetSinkVolume
  | pactlSetSinkVolume (pct : Int)
  | pactlSetSinkMuteOff
  | amixerGetMaster
  | amixerSetMasterPct (pct : Int)
  | amixerSetMasterUnmute
  | paplayCmd (iter : Nat)
  | aplayCmd (iter : Nat)
  | wslBridgeCmd (iter : Nat)
  deriving DecidableEq, Repr

/-- Outcomes of the external world for one run of the audio module.

* `hasShell` — whether a shell runner `$` was supplied (every function
  starts with `if (!$) return ...`).
* `pulseVol` — result of `pactl get-sink-volume @DEFAULT_SINK@`:
  `some v` when the command succeeds and its output matches the regex
  `(\d+)%` with captured digits parsing to `v`; `none` when the command
  throws or the regex does not match.
* `alsaVol` — likewise for `amixer get Master` and the regex `[(\d+)%]`.
* `pulseSetOk` / `alsaSetOk` / `pulseUnmuteOk` / `alsaUnmuteOk` —
  whether the corresponding set-volume / unmute command exits cleanly.
* `wsl2` — whether `/proc/version` marks the host as WSL2 (`isWSL2`).
* `wslPlayOk i` / `pulsePlayOk i` / `alsaPlayOk i` — whether the WSL2
  PowerShell bridge / `paplay` / `aplay` succeeds at loop iteration `i`
  (outcomes may vary between iterations). -/
structure Env where
  hasShell : Bool
  pulseVol : Option Nat
  alsaVol : Option Nat
  pulseSetOk : Bool
  alsaSetOk : Bool
  pulseUnmuteOk : Bool
  alsaUnmuteOk : Bool
  wsl2 : Bool
  wslPlayOk : Nat → Bool
  pulsePlayOk : Nat → Bool
  alsaPlayOk : Nat → Bool

/-- `getVolumePulse`: returns the parsed `pactl` volume, or `-1` when
there is no shell runner, the command fails, or no percentage is found
in its output. -/
def getVolumePulse (env : Env) : Int × List Cmd :=
  if env.hasShell then
    match env.pulseVol with
    | some v => ((v : Int), [Cmd.pactlGetSinkVolume])
    | none => (-1, [Cmd.pactlGetSinkVolume])
  else (-1, [])

/-- `getVolumeAlsa`: returns the parsed `amixer` volume, or `-1` on any
failure. -/
def getVolumeAlsa (env : Env) : Int × List Cmd :=
  if env.hasShell then
    match env.alsaVol with
    | some v => ((v : Int), [Cmd.amixerGetMaster])
    | none => (-1, [Cmd.amixerGetMaster])
  else (-1, [])

/-- `setVolumePulse`: clamps the requested volume to `[0, 100]`
(`Math.max(0, Math.min(100, volume))`) and issues
`pactl set-sink-volume` with the clamped value. -/
def setVolumePulse (env : Env) (volume : Int) : Bool × List Cmd :=
  if env.hasShell then
    let clampedVolume := max 0 (min 100 volume)
    (env.pulseSetOk, [Cmd.pactlSetSinkVolume clampedVolume])
  else (false, [])

/-- `setVolumeAlsa`: clamps the requested volume to `[0, 100]` and
issues `amixer set Master` with the clamped value. -/
def setVolumeAlsa (env : Env) (volume : Int) : Bool × List Cmd :=
  if env.hasShell then
    let clampedVolume := max 0 (min 100 volume)
    (env.alsaSetOk, [Cmd.amixerSetMasterPct clampedVolume])
  else (false, [])

/-- `unmutePulse`: issues `pactl set-sink-mute @DEFAULT_SINK@ 0`. -/
def unmutePulse (env : Env) : Bool × List Cmd :=
  if env.hasShell then (env.pulseUnmuteOk, [Cmd.pactlSetSinkMuteOff])
  else (false, [])

/-- `unmuteAlsa`: issues `amixer set Master unmute`. -/
def unmuteAlsa (env : Env) : Bool × List Cmd :=
  if env.hasShell then (env.alsaUnmuteOk, [Cmd.amixerSetMasterUnmute])
  else (false, [])

/-- `getCurrentVolume`: asks PulseAudio first and returns its answer if
it is non-negative, otherwise falls back to ALSA. -/
def getCurrentVolume (env : Env) : Int × List Cmd :=
  let p := getVolumePulse env
  if 0 ≤ p.1 then p
  else
    let a := getVolumeAlsa env
    (a.1, p.2 ++ a.2)

/-- `setVolume`: tries the PulseAudio backend first and falls back to
ALSA when it reports failure. -/
def setVolume (env : Env) (volume : Int) : Bool × List Cmd :=
  let p := setVolumePulse env volume
  if p.1 then p
  else
    let a := setVolumeAlsa env volume
    (a.1, p.2 ++ a.2)

/-- `unmute`: tries the PulseAudio backend first and falls back to
ALSA when it reports failure. -/
def unmute (env : Env) : Bool × List Cmd :=
  let p := unmutePulse env
  if p.1 then p
  else
    let a := unmuteAlsa env
    (a.1, p.2 ++ a.2)

/-- `forceVolume`: unmutes, then sets the volume to 100; succeeds when
either step succeeded. -/
def forceVolume (env : Env) : Bool × List Cmd :=
  let u := unmute env
  let v := setVolume env 100
  (u.1 || v.1, u.2 ++ v.2)

/-- `forceVolumeIfNeeded`: reads the current volume; forces when it
could not be detected (negative), does nothing and returns `false` when
it is at or above the threshold, and forces to 100 otherwise. -/
def forceVolumeIfNeeded (env : Env) (threshold : Int) : Bool × List Cmd :=
  let g := getCurrentVolume env
  if g.1 < 0 then
    let f := forceVolume env
    (f.1, g.2 ++ f.2)
  else if threshold ≤ g.1 then
    (false, g.2)
  else
    let f := forceVolume env
    (f.1, g.2 ++ f.2)

/-- Whether a command changes audio state (set-volume or unmute), as
opposed to merely querying it. -/
def Cmd.isVolumeChanging : Cmd → Bool
  | Cmd.pactlSetSinkVolume _ => true
  | Cmd.pactlSetSinkMuteOff => true
  | Cmd.amixerSetMasterPct _ => true
  | Cmd.amixerSetMasterUnmute => true
  | _ => false

/-- `playAudioPulse` at loop iteration `i`: runs `paplay`. -/
def playAudioPulse (env : Env) (i : Nat) : Bool × List Cmd :=
  if env.hasShell then (env.pulsePlayOk i, [Cmd.paplayCmd i])
  else (false, [])

/-- `playAudioAlsa` at loop iteration `i`: runs `aplay`. -/
def playAudioAlsa (env : Env) (i : Nat) : Bool × List Cmd :=
  if env.hasShell then (env.alsaPlayOk i, [Cmd.aplayCmd i])
  else (false, [])

/-- `playAudioWSL2` at loop iteration `i`: copies the file to the
Windows side and plays it through the PowerShell MediaPlayer bridge;
modelled as one opaque bridge command whose success `Env` decides. -/
def playAudioWSL2 (env : Env) (i : Nat) : Bool × List Cmd :=
  if env.hasShell then (env.wslPlayOk i, [Cmd.wslBridgeCmd i])
  else (false, [])

/-- One iteration of the `playAudioFile` loop: when WSL2 is detected
the bridge is tried first; on its failure (and always outside WSL2)
PulseAudio is tried, then ALSA; the iteration succeeds as soon as one
backend succeeds. -/
def playIter (env : Env) (i : Nat) : Bool × List Cmd :=
  if env.wsl2 then
    let w := playAudioWSL2 env i
    if w.1 then (true, w.2)
    else
      let p := playAudioPulse env i
      if p.1 then (true, w.2 ++ p.2)
      else
        let a := playAudioAlsa env i
        (a.1, w.2 ++ p.2 ++ a.2)
  else
    let p := playAudioPulse env i
    if p.1 then (true, p.2)
    else
      let a := playAudioAlsa env i
      (a.1, p.2 ++ a.2)

/-- The `for (let i = 0; i < loops; i++)` loop of `playAudioFile`,
starting at iteration `i` with `n` iterations left: stops with `false`
at the first iteration whose every applicable backend fails, and
returns `true` when all iterations have succeeded. -/
def playLoop (env : Env) : Nat → Nat → Bool × List Cmd
  | _, 0 => (true, [])
  | i, n + 1 =>
    let r := playIter env i
    if r.1 then
      let rest := playLoop env (i + 1) n
      (rest.1, r.2 ++ rest.2)
    else (false, r.2)

/-- `playAudioFile` with `loops` requested repetitions (a nonpositive
count runs the loop body zero times and returns `true`). -/
def playAudioFile (env : Env) (loops : Int) : Bool × List Cmd :=
  playLoop env 0 loops.toNat

lemma getVolumePulse_trace_query (env : Env) :
    ((getVolumePulse env).2.filter Cmd.isVolumeChanging) = [] := by
  cases hs : env.hasShell <;> rcases hp : env.pulseVol with _ | p <;>
    simp [getVolumePulse, hs, hp, Cmd.isVolumeChanging]

lemma getVolumeAlsa_trace_query (env : Env) :
    ((getVolumeAlsa env).2.filter Cmd.isVolumeChanging) = [] := by
  cases hs : env.hasShell <;> rcases ha : env.alsaVol with _ | a <;>
    simp [getVolumeAlsa, hs, ha, Cmd.isVolumeChanging]

lemma getCurrentVolume_trace_query (env : Env) :
    ((getCurrentVolume env).2.filter Cmd.isVolumeChanging) = [] := by
  by_cases h : 0 ≤ (getVolumePulse env).1
  · simp only [getCurrentVolume, if_pos h]
    exact getVolumePulse_trace_query env
  · simp only [getCurrentVolume, if_neg h, List.filter_append,
      getVolumePulse_trace_query, getVolumeAlsa_trace_query, List.append_nil]

/-- An environment in which everything is available and succeeds and
PulseAudio reports 30% volume; used to instantiate theorems at a
concrete input. -/
def envPulse30 : Env where
  hasShell := true
  pulseVol := some 30
  alsaVol := some 40
  pulseSetOk := true
  alsaSetOk := true
  pulseUnmuteOk := true
  alsaUnmuteOk := true
  wsl2 := false
  wslPlayOk := fun _ => true
  pulsePlayOk := fun _ => true
  alsaPlayOk := fun _ => true

/-- An environment with a shell in which `paplay` succeeds only at the
first loop iteration and `aplay` always fails; used to instantiate the
playback theorems at a concrete failing input. -/
def envPlayFailsAt1 : Env :=
  { envPulse30 with
    pulsePlayOk := fun i => i == 0
    alsaPlayOk := fun _ => false }

lemma playLoop_fst_true_iff (env : Env) (n i : Nat) :
    (playLoop env i n).1 = true ↔ ∀ k < n, (playIter env (i + k)).1 = true := by
  induction n generalizing i with
  | zero => simp [playLoop]
  | succ n ih =>
    unfold playLoop
    cases hr : (playIter env i).1
    · simp only [hr, Bool.false_eq_true, if_false]
      constructor
      · intro h; exact absurd h (by simp)
      · intro h
        have := h 0 (Nat.succ_pos n)
        simp [hr] at this
    · simp only [hr, if_true]
      rw [ih (i + 1)]
      constructor
      · intro h k hk
        cases k with
        | zero => simpa using hr
        | succ k =>
          have := h k (Nat.lt_of_succ_lt_succ hk)
          simpa [Nat.add_assoc, Nat.add_comm 1 k] using this
      · intro h k hk
        have := h (k + 1) (Nat.succ_lt_succ hk)
        simpa [Nat.add_assoc, Nat.add_comm 1 k] using this

lemma playLoop_first_failure (env : Env) (j n i : Nat) (hj : j < n)
    (hfail : (playIter env (i + j)).1 = false)
    (hok : ∀ k < j, (playIter env (i + k)).1 = true) :
    playLoop env i n =
      (false, ((List.range (j + 1)).map (fun k => (playIter env (i + k)).2)).flatten) := by
  induction j generalizing i n with
  | zero =>
    cases n with
    | zero => exact absurd hj (Nat.lt_irrefl 0)
    | succ n =>
      unfold playLoop
      simp only [Nat.add_zero] at hfail
      have h1 : List.range 1 = [0] := rfl
      simp [hfail, h1]
  | succ j ih =>
    cases n with
    | zero => exact absurd hj (Nat.not_lt_zero _)
    | succ n =>
      have h0 : (playIter env (i + 0)).1 = true := hok 0 (Nat.succ_pos j)
      simp only [Nat.add_zero] at h0
      unfold playLoop
      simp only [h0, if_true]
      have hrec := ih n (i + 1) (Nat.lt_of_succ_lt_succ hj)
        (by simpa [Nat.add_assoc, Nat.add_comm 1 j] using hfail)
        (fun k hk => by
          have := hok (k + 1) (Nat.succ_lt_succ hk)
          simpa [Nat.add_assoc, Nat.add_comm 1 k] using this)
      rw [hrec]
      have hmap :
          (List.range (j + 1 + 1)).map (fun k => (playIter env (i + k)).2) =
            (playIter env i).2 ::
              (List.range (j + 1)).map (fun k => (playIter env (i + 1 + k)).2) := by
        rw [List.range_succ_eq_map]
        simp only [List.map_cons, List.map_map, Nat.add_zero]
        congr 1
        apply List.map_congr_left
        intro k _
        simp [Function.comp, Nat.add_assoc, Nat.add_comm 1 k]
      rw [hmap]
      simp

lemma playIter_fst (env : Env) (i : Nat) :
    (playIter env i).1 =
      ((env.wsl2 && (playAudioWSL2 env i).1) || (playAudioPulse env i).1 ||
        (playAudioAlsa env i).1) := by
  cases hw : env.wsl2 <;> cases hs : env.hasShell <;>
    cases hb : env.wslPlayOk i <;> cases hp : env.pulsePlayOk i <;>
      cases ha : env.alsaPlayOk i <;>
        simp [playIter, playAudioWSL2, playAudioPulse, playAudioAlsa, hw, hs, hb, hp, ha]

/-- Claim C8: for every integer input `v`, `setVolumePulse v` and
`setVolumeAlsa v` pass only the clamped value `min 100 (max 0 v)` to
the audio backend (when a shell is available; with no shell no command
is issued at all), and that clamped value always lies in `[0, 100]`. -/
theorem setVolume_only_clamped (env : Env) (v : Int) :
    (setVolumePulse env v).2 =
      (if env.hasShell then [Cmd.pactlSetSinkVolume (min 100 (max 0 v))] else []) ∧
    (setVolumeAlsa env v).2 =
      (if env.hasShell then [Cmd.amixerSetMasterPct (min 100 (max 0 v))] else []) ∧
    0 ≤ min 100 (max 0 v) ∧ min 100 (max 0 v) ≤ 100 := by
  have hcl : max 0 (min 100 v) = min 100 (max 0 v) := by omega
  refine ⟨?_, ?_, by omega, by omega⟩ <;>
    cases hs : env.hasShell <;>
      simp [setVolumePulse, setVolumeAlsa, hs, hcl]

/-- Claim C9: `getCurrentVolume` returns the PulseAudio-reported volume
whenever that backend yields a non-negative value (and then never
consults ALSA), falls back to the ALSA result otherwise, and returns
`-1` exactly when both backends fail to report a volume — a backend
fails when there is no shell runner or its command yields no parsable
percentage. -/
theorem getCurrentVolume_fallback (env : Env) :
    (0 ≤ (getVolumePulse env).1 →
      (getCurrentVolume env).1 = (getVolumePulse env).1 ∧
      Cmd.amixerGetMaster ∉ (getCurrentVolume env).2) ∧
    ((getVolumePulse env).1 < 0 →
      (getCurrentVolume env).1 = (getVolumeAlsa env).1) ∧
    ((getCurrentVolume env).1 = -1 ↔
      (env.hasShell = false ∨ env.pulseVol = none) ∧
      (env.hasShell = false ∨ env.alsaVol = none)) := by
  cases hs : env.hasShell <;>
    rcases hp : env.pulseVol with _ | p <;>
      rcases ha : env.alsaVol with _ | a <;>
        simp [getCurrentVolume, getVolumePulse, getVolumeAlsa, hs, hp, ha]

/-- Witness for C9 at a concrete environment: PulseAudio reports 30%,
so the unified query returns the Pulse value and never runs `amixer`. -/
theorem getCurrentVolume_fallback_witness :
    (getCurrentVolume envPulse30).1 = (getVolumePulse envPulse30).1 ∧
    Cmd.amixerGetMaster ∉ (getCurrentVolume envPulse30).2 :=
  (getCurrentVolume_fallback envPulse30).1 (by decide)

/-- Claim C7: `forceVolumeIfNeeded` acts only as needed — when a volume
is detected (non-negative) and is at or above the threshold it returns
`false` and issues no volume-changing command; otherwise (volume below
threshold, or detection failed with a negative result) it runs
`forceVolume`, which unmutes and sets the volume to 100 and succeeds
when either step does. -/
theorem forceVolumeIfNeeded_only_as_needed (env : Env) (t : Int) :
    (0 ≤ (getCurrentVolume env).1 → t ≤ (getCurrentVolume env).1 →
      (forceVolumeIfNeeded env t).1 = false ∧
      ((forceVolumeIfNeeded env t).2.filter Cmd.isVolumeChanging) = []) ∧
    ((getCurrentVolume env).1 < 0 ∨ (getCurrentVolume env).1 < t →
      (forceVolumeIfNeeded env t).1 = (forceVolume env).1 ∧
      (forceVolumeIfNeeded env t).2 = (getCurrentVolume env).2 ++ (forceVolume env).2) ∧
    (forceVolume env).1 = ((unmute env).1 || (setVolume env 100).1) ∧
    (forceVolume env).2 = (unmute env).2 ++ (setVolume env 100).2 := by
  refine ⟨?_, ?_, rfl, rfl⟩
  · intro h0 ht
    unfold forceVolumeIfNeeded
    rw [if_neg (by omega), if_pos ht]
    exact ⟨rfl, getCurrentVolume_trace_query env⟩
  · intro h
    unfold forceVolumeIfNeeded
    rcases lt_or_le (getCurrentVolume env).1 0 with hneg | hpos
    · rw [if_pos hneg]; exact ⟨rfl, rfl⟩
    · have hbelow : (getCurrentVolume env).1 < t := by omega
      rw [if_neg (by omega), if_neg (by omega)]
      exact ⟨rfl, rfl⟩

/-- Witness for C7 at a concrete environment: detected volume 30 is at
or above threshold 20, so nothing is forced. -/
theorem forceVolumeIfNeeded_witness :
    (forceVolumeIfNeeded envPulse30 20).1 = false ∧
    ((forceVolumeIfNeeded envPulse30 20).2.filter Cmd.isVolumeChanging) = [] :=
  (forceVolumeIfNeeded_only_as_needed envPulse30 20).1 (by decide) (by decide)

/-- Claim C10: `playAudioFile` returns `true` for a nonpositive loop
count without attempting any playback; it returns `true` exactly when
every requested iteration succeeds on some backend (WSL2 bridge when
WSL2 is detected, then PulseAudio, then ALSA); and at the first
iteration whose every applicable backend fails it returns `false`
having attempted exactly the iterations up to and including that one. -/
theorem playAudioFile_loop_semantics (env : Env) (loops : Int) :
    (loops ≤ 0 → playAudioFile env loops = (true, [])) ∧
    ((playAudioFile env loops).1 = true ↔
      ∀ i < loops.toNat, (playIter env i).1 = true) ∧
    (∀ i, (playIter env i).1 =
      ((env.wsl2 && (playAudioWSL2 env i).1) || (playAudioPulse env i).1 ||
        (playAudioAlsa env i).1)) ∧
    (∀ j < loops.toNat, (playIter env j).1 = false →
      (∀ i < j, (playIter env i).1 = true) →
      playAudioFile env loops =
        (false, ((List.range (j + 1)).map (fun i => (playIter env i).2)).flatten)) := by
  refine ⟨?_, ?_, playIter_fst env, ?_⟩
  · intro h
    have : loops.toNat = 0 := Int.toNat_of_nonpos h
    simp [playAudioFile, this, playLoop]
  · unfold playAudioFile
    rw [playLoop_fst_true_iff]
    simp
  · intro j hj hfail hok
    unfold playAudioFile
    have h := playLoop_first_failure env j loops.toNat 0 hj (by simpa using hfail)
      (fun k hk => by simpa using hok k hk)
    simpa using h

/-- Witness for C10 at a concrete environment: playback fails at loop
iteration 1, so a request for 3 loops stops after iteration 1 with
`false`, having attempted exactly iterations 0 and 1. -/
theorem playAudioFile_loop_witness :
    playAudioFile envPlayFailsAt1 3 =
      (false, ((List.range 2).map (fun i => (playIter envPlayFailsAt1 i).2)).flatten) :=
  (playAudioFile_loop_semantics envPlayFailsAt1 3).2.2.2 1 (by decide) (by decide)
    (by decide)

end LinuxAudio

namespace Scheduler

/-!
Modelled from the spec: the idle reminder scheduler (the per-session
state machine of spec sections 3 to 5).  The scheduler implementation
file is not part of this source snapshot — only its end-to-end tests
(src/tests/e2e/reminder-flow.test.js) are — so the state machine below
follows the specification text: the `ReminderState` record of section 3,
the transitions and the generation-based cancellation of section 4.1,
and the backoff formula delay(k) = initialDelaySeconds *
backoffMultiplier ^ k.

The model is for one session (sessions are independent, section 5) and
one event at a time (events for a session are serialized, section 5).
Time is in abstract units; a pending timer stores the generation
captured at arm time and its absolute due instant.  A timer firing is
an event; an activity event carries a flag saying whether the armed
timer could still be physically stopped — when it could not, the fired
callback must observe that its generation is stale and decline to act.
A timer-fire event carries the Notification Dispatcher's result for the
attempt, which the scheduler records but never consults.
-/

/-- Scheduler status, from the data model of spec section 3. -/
inductive Status where
  | idle
  | scheduled
  | firing
  | cancelled
  | exhausted
  deriving DecidableEq, Repr

/-- A pending timer: the `generation` captured when it was armed, and
the absolute time at which it is due to fire. -/
structure Timer where
  gen : Nat
  due : Nat
  deriving DecidableEq, Repr

/-- Modelled from the spec: per-session `ReminderState` (section 3),
without the fields the claims never touch (`sessionId`, `idleSince`). -/
structure ReminderState where
  status : Status
  attemptCount : Nat
  generation : Nat
  pendingTimer : Option Timer
  deriving Repr

/-- Scheduler configuration options consumed (spec section 6);
`initialDelaySeconds` is the single effective initial delay the spec
makes of the two delay knobs. -/
structure Config where
  enabled : Bool
  enableFollowUpReminders : Bool
  maxFollowUpReminders : Nat
  initialDelaySeconds : Nat
  backoffMultiplier : Nat
  deriving Repr

/-- Events consumed by the per-session state machine.  `sessionIdle`
carries its arrival time; `activity` carries whether the armed timer
was physically stopped in time (when `false` the stale timer will
still fire and must be neutralised by the generation check);
`timerFire` carries the Notification Dispatcher's delivery result. -/
inductive Event where
  | sessionIdle (t : Nat)
  | activity (timerStopped : Bool)
  | timerFire (dispatchOk : Bool)
  deriving DecidableEq, Repr

/-- Whether an event is a `sessionIdle` event. -/
def Event.isIdleEvent : Event → Bool
  | Event.sessionIdle _ => true
  | _ => false

/-- The state before any event: no episode, generation 0, no timer. -/
def initState : ReminderState :=
  { status := Status.idle, attemptCount := 0, generation := 0, pendingTimer := none }

/-- Modelled from the spec: transition 1 / 5 of section 4.1 — starting
a fresh idle episode at time `t` arms a timer for the initial delay,
resets `attemptCount` to 0 and bumps `generation`; the new timer
captures the new generation. -/
def startEpisode (cfg : Config) (s : ReminderState) (t : Nat) : ReminderState :=
  { status := Status.scheduled
    attemptCount := 0
    generation := s.generation + 1
    pendingTimer := some ⟨s.generation + 1, t + cfg.initialDelaySeconds⟩ }

/-- Modelled from the spec: handling a `sessionIdle` event — with the
scheduler enabled it starts a fresh episode unless one is already being
handled (status `Scheduled` or `Firing`), in which case the duplicate
is a no-op (section 4.2). -/
def onSessionIdle (cfg : Config) (s : ReminderState) (t : Nat) : ReminderState :=
  if cfg.enabled ∧ s.status ≠ Status.scheduled ∧ s.status ≠ Status.firing then
    startEpisode cfg s t
  else s

/-- Modelled from the spec: cancellation on an activity event (section
4.1) — sets `status = Cancelled` and increments `generation`
unconditionally, whether or not a timer is pending; the armed timer is
stopped when physically possible (`timerStopped`), and otherwise left
to fire stale. -/
def cancel (s : ReminderState) (timerStopped : Bool) : ReminderState :=
  { status := Status.cancelled
    attemptCount := s.attemptCount
    generation := s.generation + 1
    pendingTimer := if timerStopped then none else s.pendingTimer }

/-- Modelled from the spec: a timer-fire callback (transitions 2 and 3
of section 4.1, run atomically under the per-session serialization of
section 5).  The callback first compares the generation captured at arm
time with the current generation; on mismatch it is a no-op (no
delivery, no new timer).  On match it invokes the dispatcher for the
current attempt, increments `attemptCount`, and then either arms the
next follow-up timer for `initialDelaySeconds * backoffMultiplier ^
attemptCount` (when follow-ups are enabled and the budget is not
exhausted) or ends the episode as `Exhausted`.  Returns the updated
state and `some (fireTime, dispatchOk)` when a reminder was delivered. -/
def fireTimer (cfg : Config) (s : ReminderState) (dispatchOk : Bool) :
    ReminderState × Option (Nat × Bool) :=
  match s.pendingTimer with
  | none => (s, none)
  | some tm =>
    if tm.gen = s.generation then
      let attemptCount := s.attemptCount + 1
      if cfg.enableFollowUpReminders ∧ attemptCount < cfg.maxFollowUpReminders then
        ({ status := Status.scheduled
           attemptCount := attemptCount
           generation := s.generation
           pendingTimer :=
             some ⟨s.generation,
               tm.due + cfg.initialDelaySeconds * cfg.backoffMultiplier ^ attemptCount⟩ },
         some (tm.due, dispatchOk))
      else
        ({ status := Status.exhausted
           attemptCount := attemptCount
           generation := s.generation
           pendingTimer := none },
         some (tm.due, dispatchOk))
    else
      ({ s with pendingTimer := none }, none)

/-- One serialized event step; returns the updated state and the
reminder delivered by this step, if any, as `(fireTime, dispatchOk)`. -/
def step (cfg : Config) (s : ReminderState) : Event → ReminderState × Option (Nat × Bool)
  | Event.sessionIdle t => (onSessionIdle cfg s t, none)
  | Event.activity stopped => (cancel s stopped, none)
  | Event.timerFire ok => fireTimer cfg s ok

/-- Run the state machine over a list of events, collecting the
delivered reminders in order. -/
def run (cfg : Config) : ReminderState → List Event → ReminderState × List (Nat × Bool)
  | s, [] => (s, [])
  | s, e :: es =>
    let r := step cfg s e
    let rest := run cfg r.1 es
    (rest.1, r.2.toList ++ rest.2)

/-- Cumulative backoff: `cumDelay cfg k` is the time after idle-entry
at which attempt `k` fires, so `cumDelay cfg (k+1) - cumDelay cfg k`
is `delay(k) = initialDelaySeconds * backoffMultiplier ^ k`. -/
def cumDelay (cfg : Config) : Nat → Nat
  | 0 => 0
  | k + 1 => cumDelay cfg k + cfg.initialDelaySeconds * cfg.backoffMultiplier ^ k

/-- Whether every timer the state holds was armed under a generation
no newer than the current one (an invariant of every reachable state). -/
def genBounded (s : ReminderState) : Bool :=
  match s.pendingTimer with
  | none => true
  | some tm => tm.gen ≤ s.generation

/-- Whether the state holds no timer that would pass the generation
check: the pending timer, if any, is stale. -/
def noLiveTimer (s : ReminderState) : Bool :=
  match s.pendingTimer with
  | none => true
  | some tm => tm.gen < s.generation

/-- Mid-chain state of an uninterrupted episode started at time `t`
under generation `g`: `j` reminders delivered, the timer for attempt
`j + 1` armed. -/
def midState (cfg : Config) (g t j : Nat) : ReminderState :=
  { status := Status.scheduled
    attemptCount := j
    generation := g
    pendingTimer := some ⟨g, t + cumDelay cfg (j + 1)⟩ }

/-- Terminal state of an episode that used up its attempt budget. -/
def exhaustedState (g j : Nat) : ReminderState :=
  { status := Status.exhausted
    attemptCount := j
    generation := g
    pendingTimer := none }

lemma run_cons (cfg : Config) (s : ReminderState) (e : Event) (es : List Event) :
    run cfg s (e :: es) =
      ((run cfg (step cfg s e).1 es).1,
        (step cfg s e).2.toList ++ (run cfg (step cfg s e).1 es).2) := rfl

lemma run_append (cfg : Config) (s : ReminderState) (l1 l2 : List Event) :
    run cfg s (l1 ++ l2) =
      ((run cfg (run cfg s l1).1 l2).1,
        (run cfg s l1).2 ++ (run cfg (run cfg s l1).1 l2).2) := by
  induction l1 generalizing s with
  | nil => simp [run]
  | cons e l1 ih =>
    simp only [List.cons_append, run_cons, ih, List.append_assoc]

lemma genBounded_cancel (s : ReminderState) (stopped : Bool)
    (h : genBounded s = true) : genBounded (cancel s stopped) = true := by
  unfold genBounded at h ⊢
  unfold cancel
  cases stopped <;> rcases hp : s.pendingTimer with _ | tm <;> simp_all <;> omega

lemma noLiveTimer_cancel (s : ReminderState) (stopped : Bool)
    (h : genBounded s = true) : noLiveTimer (cancel s stopped) = true := by
  unfold genBounded at h
  unfold noLiveTimer cancel
  cases stopped <;> rcases hp : s.pendingTimer with _ | tm <;> simp_all <;> omega

lemma noLiveTimer_genBounded (s : ReminderState)
    (h : noLiveTimer s = true) : genBounded s = true := by
  unfold noLiveTimer at h
  unfold genBounded
  rcases hp : s.pendingTimer with _ | tm <;> simp_all <;> omega

/-- From a state with no live timer, a trace that contains no new
`sessionIdle` event delivers nothing and keeps the timerless/stale
property. -/
lemma noLive_run (cfg : Config) (es : List Event) :
    ∀ s : ReminderState, noLiveTimer s = true →
      es.all (fun e => !e.isIdleEvent) = true →
      (run cfg s es).2 = [] ∧ noLiveTimer (run cfg s es).1 = true := by
  induction es with
  | nil => intro s h _; exact ⟨rfl, h⟩
  | cons e es ih =>
    intro s h hall
    simp only [List.all_cons, Bool.and_eq_true] at hall
    rcases hall with ⟨he, hall⟩
    cases e with
    | sessionIdle t => simp [Event.isIdleEvent] at he
    | activity stopped =>
      have h2 : noLiveTimer (cancel s stopped) = true :=
        noLiveTimer_cancel s stopped (noLiveTimer_genBounded s h)
      have := ih (cancel s stopped) h2 hall
      simpa [run_cons, step] using this
    | timerFire ok =>
      unfold noLiveTimer at h
      rcases hp : s.pendingTimer with _ | tm
      · have hstep : step cfg s (Event.timerFire ok) = (s, none) := by
          simp [step, fireTimer, hp]
        have := ih s (by simp [noLiveTimer, hp]) hall
        rw [run_cons, hstep]
        simpa using this
      · rw [hp] at h
        simp only [decide_eq_true_eq] at h
        have hstep : step cfg s (Event.timerFire ok) =
            ({ s with pendingTimer := none }, none) := by
          simp [step, fireTimer, hp]
          intro hgen
          omega
        have h2 : noLiveTimer { s with pendingTimer := none } = true := by
          simp [noLiveTimer]
        have := ih _ h2 hall
        rw [run_cons, hstep]
        simpa using this

lemma onSessionIdle_init (cfg : Config) (t : Nat) (hen : cfg.enabled = true) :
    onSessionIdle cfg initState t = midState cfg 1 t 0 := by
  simp [onSessionIdle, initState, startEpisode, midState, cumDelay, hen]

lemma step_fire_live (cfg : Config) (ok : Bool) (g t j : Nat)
    (hf : cfg.enableFollowUpReminders = true)
    (hj : j + 1 < cfg.maxFollowUpReminders) :
    step cfg (midState cfg g t j) (Event.timerFire ok) =
      (midState cfg g t (j + 1), some (t + cumDelay cfg (j + 1), ok)) := by
  have hdue :
      t + cumDelay cfg (j + 1) + cfg.initialDelaySeconds * cfg.backoffMultiplier ^ (j + 1) =
        t + cumDelay cfg (j + 1 + 1) := by
    simp [cumDelay, Nat.add_assoc]
  simp only [step, fireTimer, midState]
  rw [if_pos trivial, if_pos ⟨hf, hj⟩, hdue]

lemma step_fire_exhaust (cfg : Config) (ok : Bool) (g t j : Nat)
    (hj : ¬(cfg.enableFollowUpReminders = true ∧ j + 1 < cfg.maxFollowUpReminders)) :
    step cfg (midState cfg g t j) (Event.timerFire ok) =
      (exhaustedState g (j + 1), some (t + cumDelay cfg (j + 1), ok)) := by
  simp only [step, fireTimer, midState, exhaustedState]
  rw [if_pos trivial, if_neg hj]

/-- An uninterrupted chain of fires that stays strictly inside the
budget walks from `midState j` to `midState (j + n)`, delivering one
reminder per fire at the cumulative backoff instants. -/
lemma run_fires_live (cfg : Config) (hf : cfg.enableFollowUpReminders = true) (ok : Bool)
    (g t : Nat) :
    ∀ n j : Nat, j + n < cfg.maxFollowUpReminders →
      run cfg (midState cfg g t j) (List.replicate n (Event.timerFire ok)) =
        (midState cfg g t (j + n),
          (List.range n).map (fun i => (t + cumDelay cfg (j + 1 + i), ok))) := by
  intro n
  induction n with
  | zero => intro j _; simp [run]
  | succ n ih =>
    intro j h
    rw [List.replicate_succ, run_cons,
      step_fire_live cfg ok g t j hf (by omega), ih (j + 1) (by omega)]
    have hst : j + 1 + n = j + (n + 1) := by omega
    have hmap :
        (t + cumDelay cfg (j + 1), ok) ::
            (List.range n).map (fun i => (t + cumDelay cfg (j + 1 + 1 + i), ok)) =
          (List.range (n + 1)).map (fun i => (t + cumDelay cfg (j + 1 + i), ok)) := by
      rw [List.range_succ_eq_map]
      simp only [List.map_cons, List.map_map, Nat.add_zero]
      congr 1
      apply List.map_congr_left
      intro i _
      simp only [Function.comp_apply]
      congr 3
      omega
    simp only [hst, Option.toList_some, List.singleton_append, hmap]

/-- An uninterrupted chain of `k ≤ maxFollowUpReminders` fires from the
start of an episode delivers exactly `k` reminders at the cumulative
backoff instants, and leaves a state whose timers are generation
bounded and whose generation is unchanged. -/
lemma run_chain (cfg : Config) (hf : cfg.enableFollowUpReminders = true) (ok : Bool)
    (g t k : Nat) (hk : k ≤ cfg.maxFollowUpReminders) :
    (run cfg (midState cfg g t 0) (List.replicate k (Event.timerFire ok))).2 =
      (List.range k).map (fun i => (t + cumDelay cfg (i + 1), ok)) ∧
    genBounded (run cfg (midState cfg g t 0) (List.replicate k (Event.timerFire ok))).1 = true ∧
    (run cfg (midState cfg g t 0) (List.replicate k (Event.timerFire ok))).1.generation = g := by
  rcases Nat.lt_or_ge k cfg.maxFollowUpReminders with hlt | hge
  · rw [run_fires_live cfg hf ok g t k 0 (by omega)]
    refine ⟨?_, by simp [genBounded, midState], rfl⟩
    apply List.map_congr_left
    intro i _
    congr 3
    omega
  · have hmax : k = cfg.maxFollowUpReminders := by omega
    cases k with
    | zero =>
      simp only [List.replicate_zero, run]
      exact ⟨by simp, by simp [genBounded, midState], rfl⟩
    | succ m =>
      have hrep : List.replicate (m + 1) (Event.timerFire ok) =
          List.replicate m (Event.timerFire ok) ++ [Event.timerFire ok] :=
        List.replicate_succ' m (Event.timerFire ok)
      rw [hrep, run_append, run_fires_live cfg hf ok g t m 0 (by omega)]
      have hlast : run cfg (midState cfg g t (0 + m)) [Event.timerFire ok] =
          (exhaustedState g (0 + m + 1), [(t + cumDelay cfg (0 + m + 1), ok)]) := by
        rw [show [Event.timerFire ok] = Event.timerFire ok :: [] from rfl, run_cons,
          step_fire_exhaust cfg ok g t (0 + m) (by omega)]
        simp [run]
      rw [hlast]
      refine ⟨?_, by simp [genBounded, exhaustedState], rfl⟩
      rw [List.range_succ, List.map_append]
      simp only [List.map_cons, List.map_nil]
      congr 1
      · apply List.map_congr_left
        intro i _
        congr 3
        omega
      · simp only [List.cons.injEq, and_true]
        congr 3
        omega

/-- What a live (generation-matching) pending timer certifies when `c`
reminders have been delivered so far in the episode: the attempt count
equals `c`, and either no reminder has fired yet (the initial timer) or
follow-ups are enabled with budget remaining. -/
def liveBudget (cfg : Config) (s : ReminderState) (c : Nat) : Prop :=
  ∀ tm : Timer, s.pendingTimer = some tm → tm.gen = s.generation →
    s.attemptCount = c ∧
      (c = 0 ∨ (cfg.enableFollowUpReminders = true ∧ c < cfg.maxFollowUpReminders))

lemma liveBudget_vacuous (cfg : Config) (s : ReminderState) (c : Nat)
    (h : noLiveTimer s = true) : liveBudget cfg s c := by
  intro tm hp hg
  unfold noLiveTimer at h
  rw [hp] at h
  simp only [decide_eq_true_eq] at h
  omega

/-- Budget invariant: from a generation-bounded state certifying `c`
deliveries, any trace without a new `sessionIdle` event keeps the
episode's total delivery count within the attempt budget. -/
lemma run_budget (cfg : Config) (hN : 1 ≤ cfg.maxFollowUpReminders) :
    ∀ es : List Event, es.all (fun e => !e.isIdleEvent) = true →
      ∀ (s : ReminderState) (c : Nat), genBounded s = true → liveBudget cfg s c →
        c ≤ cfg.maxFollowUpReminders →
        c + (run cfg s es).2.length ≤ cfg.maxFollowUpReminders := by
  intro es
  induction es with
  | nil => intro _ s c _ _ hc; simpa [run] using hc
  | cons e es ih =>
    intro hall s c hgb hlb hc
    simp only [List.all_cons, Bool.and_eq_true] at hall
    rcases hall with ⟨he, hall⟩
    cases e with
    | sessionIdle t => simp [Event.isIdleEvent] at he
    | activity stopped =>
      have hgb2 : genBounded (cancel s stopped) = true := genBounded_cancel s stopped hgb
      have hlb2 : liveBudget cfg (cancel s stopped) c :=
        liveBudget_vacuous cfg _ c (noLiveTimer_cancel s stopped hgb)
      have := ih hall (cancel s stopped) c hgb2 hlb2 hc
      simpa [run_cons, step] using this
    | timerFire ok =>
      rcases hp : s.pendingTimer with _ | tm
      · have hstep : step cfg s (Event.timerFire ok) = (s, none) := by
          simp [step, fireTimer, hp]
        have := ih hall s c hgb hlb hc
        rw [run_cons, hstep]
        simpa using this
      · by_cases hg : tm.gen = s.generation
        · obtain ⟨hac, hbud⟩ := hlb tm hp hg
          have hc1 : c + 1 ≤ cfg.maxFollowUpReminders := by
            rcases hbud with h0 | ⟨_, hlt⟩ <;> omega
          by_cases hb : cfg.enableFollowUpReminders = true ∧
              s.attemptCount + 1 < cfg.maxFollowUpReminders
          · have hstep : step cfg s (Event.timerFire ok) =
                ({ status := Status.scheduled
                   attemptCount := s.attemptCount + 1
                   generation := s.generation
                   pendingTimer :=
                     some ⟨s.generation,
                       tm.due + cfg.initialDelaySeconds *
                         cfg.backoffMultiplier ^ (s.attemptCount + 1)⟩ },
                 some (tm.due, ok)) := by
              simp [step, fireTimer, hp, hg, hb]
            have hgb2 : genBounded
                { status := Status.scheduled
                  attemptCount := s.attemptCount + 1
                  generation := s.generation
                  pendingTimer :=
                    some ⟨s.generation,
                      tm.due + cfg.initialDelaySeconds *
                        cfg.backoffMultiplier ^ (s.attemptCount + 1)⟩ } = true := by
              simp [genBounded]
            have hlb2 : liveBudget cfg
                { status := Status.scheduled
                  attemptCount := s.attemptCount + 1
                  generation := s.generation
                  pendingTimer :=
                    some ⟨s.generation,
                      tm.due + cfg.initialDelaySeconds *
                        cfg.backoffMultiplier ^ (s.attemptCount + 1)⟩ } (c + 1) := by
              intro tm2 hp2 _
              refine ⟨?_, Or.inr ⟨hb.1, ?_⟩⟩
              · show s.attemptCount + 1 = c + 1
                omega
              · have := hb.2
                omega
            have := ih hall _ (c + 1) hgb2 hlb2 hc1
            rw [run_cons, hstep]
            simp only [Option.toList_some, List.singleton_append, List.length_cons]
            omega
          · have hstep : step cfg s (Event.timerFire ok) =
                (exhaustedState s.generation (s.attemptCount + 1), some (tm.due, ok)) := by
              simp [step, fireTimer, exhaustedState, hp, hg, hb]
            have hgb2 : genBounded (exhaustedState s.generation (s.attemptCount + 1)) = true := by
              simp [genBounded, exhaustedState]
            have hlb2 : liveBudget cfg (exhaustedState s.generation (s.attemptCount + 1)) (c + 1) :=
              liveBudget_vacuous cfg _ _ (by simp [noLiveTimer, exhaustedState])
            have := ih hall _ (c + 1) hgb2 hlb2 hc1
            rw [run_cons, hstep]
            simp only [Option.toList_some, List.singleton_append, List.length_cons]
            omega
        · have hstep : step cfg s (Event.timerFire ok) =
              ({ s with pendingTimer := none }, none) := by
            simp [step, fireTimer, hp, hg]
          have hgb2 : genBounded { s with pendingTimer := none } = true := by
            simp [genBounded]
          have hlb2 : liveBudget cfg { s with pendingTimer := none } c := by
            intro tm2 hp2 _
            simp at hp2
          have := ih hall _ c hgb2 hlb2 hc
          rw [run_cons, hstep]
          simpa using this

lemma genBounded_onIdle_init (cfg : Config) (t : Nat) :
    genBounded (onSessionIdle cfg initState t) = true := by
  unfold onSessionIdle
  split
  · simp [genBounded, startEpisode]
  · simp [genBounded, initState]

lemma liveBudget_onIdle_init (cfg : Config) (t : Nat) :
    liveBudget cfg (onSessionIdle cfg initState t) 0 := by
  unfold onSessionIdle
  split
  · intro tm hp _
    exact ⟨rfl, Or.inl rfl⟩
  · intro tm hp
    simp [initState] at hp

lemma run_idle_init (cfg : Config) (t : Nat) (hen : cfg.enabled = true) :
    run cfg initState [Event.sessionIdle t] = (midState cfg 1 t 0, []) := by
  simp [run, run_cons, step, onSessionIdle_init cfg t hen]

/-- A concrete configuration — enabled, follow-ups on, attempt budget
2, initial delay 1, multiplier 2 — used to instantiate theorems. -/
def cfgA : Config :=
  { enabled := true
    enableFollowUpReminders := true
    maxFollowUpReminders := 2
    initialDelaySeconds := 1
    backoffMultiplier := 2 }

/-- `cfgA` with an attempt budget of one reminder. -/
def cfgMax1 : Config := { cfgA with maxFollowUpReminders := 1 }

/-- `cfgA` with an attempt budget of zero. -/
def cfgMax0 : Config := { cfgA with maxFollowUpReminders := 0 }

/-- Claim C1: a timer-fire callback whose captured generation differs
from the state's current generation performs no action — it delivers no
reminder, arms no timer, and leaves status, attempt count and
generation untouched; cancelling a session sets status `Cancelled` and
increments the generation unconditionally, whether or not a timer is
pending; and consequently, once an activity event cancels the chain of
a (generation-bounded, as every reachable state is) episode, no
subsequent event of that episode — stale timer fires included — ever
delivers a reminder. -/
theorem stale_fire_noop_cancel_unconditional (cfg : Config) :
    (∀ (s : ReminderState) (tm : Timer) (ok : Bool),
      s.pendingTimer = some tm → tm.gen ≠ s.generation →
      fireTimer cfg s ok = ({ s with pendingTimer := none }, none)) ∧
    (∀ (s : ReminderState) (stopped : Bool),
      (cancel s stopped).status = Status.cancelled ∧
      (cancel s stopped).generation = s.generation + 1) ∧
    (∀ (s : ReminderState) (stopped : Bool) (es : List Event),
      genBounded s = true →
      es.all (fun e => !e.isIdleEvent) = true →
      (run cfg (cancel s stopped) es).2 = []) := by
  refine ⟨?_, ?_, ?_⟩
  · intro s tm ok hp hg
    simp [fireTimer, hp, hg]
  · intro s stopped
    exact ⟨rfl, rfl⟩
  · intro s stopped es hgb hes
    exact (noLive_run cfg es (cancel s stopped) (noLiveTimer_cancel s stopped hgb) hes).1

/-- Witness for C1: concretely, after cancellation with the timer not
physically stopped, two subsequent timer fires deliver nothing. -/
theorem stale_fire_noop_witness :
    (run cfgA (cancel (midState cfgA 1 0 0) false)
      [Event.timerFire true, Event.timerFire false]).2 = [] :=
  (stale_fire_noop_cancel_unconditional cfgA).2.2 (midState cfgA 1 0 0) false
    [Event.timerFire true, Event.timerFire false] (by decide) (by decide)

/-- Claim C2: when activity arrives after attempt `k` (k ≥ 1) has fired
and before attempt `k + 1` fires, exactly `k` reminders are delivered
in the episode — whatever non-idle events follow the cancellation,
including the stale fire of a timer that could not be stopped. -/
theorem mid_chain_cancellation_exactly_k (cfg : Config) (k t : Nat) (stopped : Bool)
    (es : List Event)
    (hen : cfg.enabled = true) (hf : cfg.enableFollowUpReminders = true)
    (h1 : 1 ≤ k) (hk : k ≤ cfg.maxFollowUpReminders)
    (hes : es.all (fun e => !e.isIdleEvent) = true) :
    (run cfg initState
      ([Event.sessionIdle t] ++ List.replicate k (Event.timerFire true) ++
        [Event.activity stopped] ++ es)).2.length = k := by
  obtain ⟨hch, hgb, _⟩ := run_chain cfg hf true 1 t k hk
  simp only [run_append, run_idle_init cfg t hen, hch]
  have hact : ∀ s : ReminderState,
      run cfg s [Event.activity stopped] = (cancel s stopped, []) := by
    intro s
    simp [run, run_cons, step]
  rw [hact]
  have hes2 := (noLive_run cfg es _
    (noLiveTimer_cancel _ stopped hgb) hes).1
  simp [hes2]

/-- Witness for C2: with budget 2, one fired attempt followed by
activity and a further (stale) fire yields exactly one reminder. -/
theorem mid_chain_cancellation_witness :
    (run cfgA initState
      ([Event.sessionIdle 0] ++ List.replicate 1 (Event.timerFire true) ++
        [Event.activity true] ++ [Event.timerFire false])).2.length = 1 :=
  mid_chain_cancellation_exactly_k cfgA 1 0 true [Event.timerFire false]
    rfl rfl (by decide) (by decide) (by decide)

/-- Claim C3: an activity event arriving strictly before the initial
delay elapses — before any timer fire — results in zero reminders for
the episode, whatever non-idle events follow. -/
theorem pre_fire_cancellation_zero (cfg : Config) (t : Nat) (stopped : Bool)
    (es : List Event)
    (hes : es.all (fun e => !e.isIdleEvent) = true) :
    (run cfg initState
      ([Event.sessionIdle t] ++ [Event.activity stopped] ++ es)).2 = [] := by
  have h1 : run cfg initState [Event.sessionIdle t] =
      (onSessionIdle cfg initState t, []) := by
    simp [run, run_cons, step]
  have hact : ∀ s : ReminderState,
      run cfg s [Event.activity stopped] = (cancel s stopped, []) := by
    intro s
    simp [run, run_cons, step]
  simp only [run_append, h1, hact]
  have hes2 := (noLive_run cfg es _
    (noLiveTimer_cancel _ stopped (genBounded_onIdle_init cfg t)) hes).1
  simp [hes2]

/-- Witness for C3: concretely, activity before the first fire leaves
the delivery list empty even though the armed timer still fires. -/
theorem pre_fire_cancellation_witness :
    (run cfgA initState
      ([Event.sessionIdle 0] ++ [Event.activity false] ++ [Event.timerFire true])).2 = [] :=
  pre_fire_cancellation_zero cfgA 0 false [Event.timerFire true] (by decide)

/-- Claim C4: with follow-ups enabled, an uninterrupted episode fires
attempt `i` (0-based) at absolute time `t + cumDelay (i+1)`; the
cumulative delays satisfy `cumDelay (j+1) - cumDelay j = delay(j) =
initialDelaySeconds * backoffMultiplier ^ j` (with `delay(0)` the
initial delay), i.e. `cumDelay k` is the geometric sum
`d + d*m + ... + d*m^(k-1)` after idle-entry. -/
theorem backoff_schedule (cfg : Config) (t k : Nat)
    (hen : cfg.enabled = true) (hf : cfg.enableFollowUpReminders = true)
    (hk : k ≤ cfg.maxFollowUpReminders) :
    (run cfg initState
        (Event.sessionIdle t :: List.replicate k (Event.timerFire true))).2 =
      (List.range k).map (fun i => (t + cumDelay cfg (i + 1), true)) ∧
    (∀ j, cumDelay cfg (j + 1) =
      cumDelay cfg j + cfg.initialDelaySeconds * cfg.backoffMultiplier ^ j) ∧
    (∀ j, cumDelay cfg j =
      ∑ i in Finset.range j, cfg.initialDelaySeconds * cfg.backoffMultiplier ^ i) := by
  refine ⟨?_, fun j => rfl, ?_⟩
  · rw [run_cons]
    have hstep : step cfg initState (Event.sessionIdle t) = (midState cfg 1 t 0, none) := by
      simp [step, onSessionIdle_init cfg t hen]
    rw [hstep]
    simpa using (run_chain cfg hf true 1 t k hk).1
  · intro j
    induction j with
    | zero => simp [cumDelay]
    | succ j ih =>
      rw [Finset.sum_range_succ, ← ih]
      rfl

/-- Witness for C4: with delay 1 and multiplier 2, the two attempts of
an uninterrupted budget-2 episode fire at times 1 and 3. -/
theorem backoff_schedule_witness :
    (run cfgA initState
        (Event.sessionIdle 0 :: List.replicate 2 (Event.timerFire true))).2 =
      (List.range 2).map (fun i => (0 + cumDelay cfgA (i + 1), true)) :=
  (backoff_schedule cfgA 0 2 rfl rfl (by decide)).1

/-- Counterexample to C5 as stated: with `maxFollowUpReminders = 0` the
initial reminder still fires — one reminder is delivered although the
claimed bound for that configuration is zero. -/
theorem budget_cap_counterexample :
    cfgMax0.maxFollowUpReminders = 0 ∧
    (run cfgMax0 initState [Event.sessionIdle 0, Event.timerFire true]).2.length = 1 :=
  ⟨rfl, by decide⟩

/-- Claim C5 as amended: for every configuration with
`maxFollowUpReminders = N ≥ 1`, at most `N` reminders fire per idle
episode regardless of the events that follow, the initial reminder
consuming one unit of the budget; and `N = 1` yields exactly one
reminder total even with follow-ups enabled. (For `N = 0` the initial
reminder still fires once: the budget is only consulted after a fire —
see the counterexample.) -/
theorem budget_cap_amended (cfg : Config) (t : Nat) (ok : Bool) (es : List Event)
    (hN : 1 ≤ cfg.maxFollowUpReminders)
    (hes : es.all (fun e => !e.isIdleEvent) = true) :
    (run cfg initState (Event.sessionIdle t :: es)).2.length ≤
      cfg.maxFollowUpReminders ∧
    (cfg.maxFollowUpReminders = 1 → cfg.enabled = true →
      (run cfg initState
        (Event.sessionIdle t :: Event.timerFire ok :: es)).2.length = 1) := by
  constructor
  · rw [run_cons]
    have hrb := run_budget cfg hN es hes (onSessionIdle cfg initState t) 0
      (genBounded_onIdle_init cfg t) (liveBudget_onIdle_init cfg t) (by omega)
    simpa [step] using hrb
  · intro h1 hen
    rw [run_cons]
    have hstep : step cfg initState (Event.sessionIdle t) = (midState cfg 1 t 0, none) := by
      simp [step, onSessionIdle_init cfg t hen]
    rw [hstep]
    rw [run_cons]
    rw [step_fire_exhaust cfg ok 1 t 0 (by omega)]
    have hes2 := (noLive_run cfg es (exhaustedState 1 (0 + 1))
      (by simp [noLiveTimer, exhaustedState]) hes).1
    simp [hes2]

/-- Witness for C5 (amended): with budget 1, one fire delivers exactly
one reminder and a later (stale or exhausted) fire adds nothing. -/
theorem budget_cap_amended_witness :
    (run cfgMax1 initState
      (Event.sessionIdle 0 :: Event.timerFire true :: [Event.timerFire false])).2.length = 1 :=
  (budget_cap_amended cfgMax1 0 true [Event.timerFire false] (by decide) (by decide)).2
    rfl rfl

/-- Claim C6: the scheduler's behaviour after a dispatch failure is
identical to the success case — the successor state (status, attempt
count, generation, armed timer) and the fact and time of the delivery
do not depend on the dispatcher's result; on a live fire the attempt
count is incremented and either the next follow-up is armed for the
backoff delay (follow-ups enabled, budget remaining) or the episode
exhausts; a fire delivers at most once, so a failed dispatch is never
retried within the attempt and never aborts the chain early. -/
theorem dispatch_failure_ignored (cfg : Config) (s : ReminderState) :
    ((fireTimer cfg s false).1 = (fireTimer cfg s true).1 ∧
      (fireTimer cfg s false).2.map Prod.fst = (fireTimer cfg s true).2.map Prod.fst) ∧
    (∀ tm : Timer, s.pendingTimer = some tm → tm.gen = s.generation →
      (fireTimer cfg s false).1.attemptCount = s.attemptCount + 1 ∧
      (fireTimer cfg s false).2 = some (tm.due, false) ∧
      (if cfg.enableFollowUpReminders = true ∧
          s.attemptCount + 1 < cfg.maxFollowUpReminders then
        (fireTimer cfg s false).1.status = Status.scheduled ∧
        (fireTimer cfg s false).1.pendingTimer =
          some ⟨s.generation,
            tm.due + cfg.initialDelaySeconds *
              cfg.backoffMultiplier ^ (s.attemptCount + 1)⟩
      else
        (fireTimer cfg s false).1.status = Status.exhausted ∧
        (fireTimer cfg s false).1.pendingTimer = none)) := by
  constructor
  · rcases hp : s.pendingTimer with _ | tm
    · simp [fireTimer, hp]
    · by_cases hg : tm.gen = s.generation
      · by_cases hb : cfg.enableFollowUpReminders = true ∧
            s.attemptCount + 1 < cfg.maxFollowUpReminders
        · simp [fireTimer, hp, hg, hb]
        · simp [fireTimer, hp, hg, hb]
      · simp [fireTimer, hp, hg]
  · intro tm hp hg
    by_cases hb : cfg.enableFollowUpReminders = true ∧
        s.attemptCount + 1 < cfg.maxFollowUpReminders
    · rw [if_pos hb]
      simp [fireTimer, hp, hg, hb]
    · rw [if_neg hb]
      simp [fireTimer, hp, hg, hb]

/-- Witness for C6: at a concrete live fire with a failed dispatch, the
attempt count still advances. -/
theorem dispatch_failure_ignored_witness :
    (fireTimer cfgA (midState cfgA 1 0 0) false).1.attemptCount =
      (midState cfgA 1 0 0).attemptCount + 1 :=
  ((dispatch_failure_ignored cfgA (midState cfgA 1 0 0)).2
    ⟨1, 0 + cumDelay cfgA (0 + 1)⟩ rfl rfl).1

end Scheduler

end SmartVoiceNotify
